import Mathlib

/-!
Verification of the sips-js-api repository: TypeScript declaration files
describing the JavaScript scripting surface of the macOS `sips` utility.

The repository contains three revisions of the declaration file
(src/types/index.d.ts and the two concatenated revisions in
src/unnamed/part_000).  Each revision consists solely of ambient
TypeScript declarations: classes, interfaces, vars, one free function and
two type aliases, with doc comments.  We embed the declarations as data
(a small grammar of ambient TypeScript declarations, rich enough to
express bodies, initializers, async markers, throw clauses, promise and
function types — none of which occur in the sources) and transcribe each
file into that grammar.  Syntactic claims about the API surface are then
settled by evaluation over the transcription.

The behavioral claims (fresh-canvas defaults, save/restore, getContext,
addColorStop, sizeToFitLongestEdge) concern operations that the sources
declare but do not implement (the implementation lives in the external
closed-source binary); those operations are modelled from their
documented contracts, as marked on each such definition.
-/

/-- Grammar of the types that appear in ambient TypeScript declarations.
`promiseT` and `funT` are part of the grammar (TypeScript can express
asynchronous results and callbacks) but are never used by the
transcription of these sources. -/
inductive TsType where
  | void
  | boolean
  | num
  | str
  | anyT
  | unknownT
  | undefinedT
  | objName (s : String)
  | thisT
  | strLit (s : String)
  | orT (a b : TsType)
  | arrT (t : TsType)
  | mapT (k v : TsType)
  | promiseT (t : TsType)
  | funT (a b : TsType)
  deriving DecidableEq

/-- A union of string literal types, as in `'butt' | 'round' | 'square'`. -/
def strUnion : List String → TsType
  | [] => .undefinedT
  | [s] => .strLit s
  | s :: rest => .orT (.strLit s) (strUnion rest)

/-- A declared parameter: name, type, optional marker, a default value if
the declaration supplies one (as in `counterclockwise: boolean = false`),
and the value-range or precondition sentences stated in prose in the
parameter's doc comment, transcribed verbatim. -/
structure Param where
  pname : String
  ptype : TsType
  optionalP : Bool
  defaultVal : Option String
  docNotes : List String
  deriving DecidableEq

/-- A declared method signature.  `isAsync`, `thrws` and `body` are
grammar slots for an async marker, a declared throw clause and an
executable body; the sources leave all three empty everywhere. -/
structure MethodSig where
  mname : String
  params : List Param
  ret : TsType
  isAsync : Bool
  thrws : Option TsType
  body : Option String
  deriving DecidableEq

/-- A declared property: name, type, readonly/optional markers, the
documented default value (the doc comment's defaultValue tag, or its
bracketed default note), prose constraint sentences, and a code-level
initializer slot (empty everywhere in the sources). -/
structure PropSig where
  pname : String
  ptype : TsType
  isReadonly : Bool
  optionalP : Bool
  defaultDoc : Option String
  docNotes : List String
  initVal : Option String
  deriving DecidableEq

/-- A member of a class or interface declaration. -/
inductive Member where
  | prop (p : PropSig)
  | method (s : MethodSig)
  | ctor (params : List Param) (body : Option String)
  deriving DecidableEq

/-- A top-level ambient declaration. -/
inductive Decl where
  | classD (dname : String) (members : List Member)
  | interfaceD (dname : String) (members : List Member)
  | varD (vname : String) (vtype : TsType) (initVal : Option String)
  | funD (s : MethodSig)
  | typeAliasD (aname : String) (ty : TsType)
  deriving DecidableEq

def mkParam (nm : String) (t : TsType) : Param := ⟨nm, t, false, none, []⟩

def mkParamOpt (nm : String) (t : TsType) : Param := ⟨nm, t, true, none, []⟩

def mkParamNote (nm : String) (t : TsType) (notes : List String) : Param :=
  ⟨nm, t, false, none, notes⟩

def mkParamDefault (nm : String) (t : TsType) (d : String) : Param :=
  ⟨nm, t, false, some d, []⟩

def mkMethod (nm : String) (ps : List Param) (r : TsType) : MethodSig :=
  ⟨nm, ps, r, false, none, none⟩

def mkProp (nm : String) (t : TsType) : PropSig :=
  ⟨nm, t, false, false, none, [], none⟩

def mkPropRO (nm : String) (t : TsType) : PropSig :=
  ⟨nm, t, true, false, none, [], none⟩

def mkPropOpt (nm : String) (t : TsType) : PropSig :=
  ⟨nm, t, false, true, none, [], none⟩

def mkPropD (nm : String) (t : TsType) (d : String) : PropSig :=
  ⟨nm, t, false, false, some d, [], none⟩

def mkPropOptD (nm : String) (t : TsType) (d : String) : PropSig :=
  ⟨nm, t, false, true, some d, [], none⟩

def mkPropROD (nm : String) (t : TsType) (d : String) : PropSig :=
  ⟨nm, t, true, false, some d, [], none⟩

/-! Shared parameter lists that recur across the three revisions. -/

def xyParams : List Param := [mkParam "x" .num, mkParam "y" .num]

def rectParams : List Param :=
  [mkParam "x" .num, mkParam "y" .num, mkParam "width" .num, mkParam "height" .num]

def matrixParams : List Param :=
  [mkParam "a" .num, mkParam "b" .num, mkParam "c" .num,
   mkParam "d" .num, mkParam "e" .num, mkParam "f" .num]

def linGradParams : List Param :=
  [mkParam "x0" .num, mkParam "y0" .num, mkParam "x1" .num, mkParam "y1" .num]

def radGradParamsDoc : List Param :=
  [mkParam "x0" .num, mkParam "y0" .num,
   mkParamNote "r0" .num ["Must be non-negative and finite."],
   mkParam "x1" .num, mkParam "y1" .num,
   mkParamNote "r1" .num ["Must be non-negative and finite."]]

def radGradParamsPlain : List Param :=
  [mkParam "x0" .num, mkParam "y0" .num, mkParam "r0" .num,
   mkParam "x1" .num, mkParam "y1" .num, mkParam "r1" .num]

def arcBaseParams : List Param :=
  [mkParam "x" .num, mkParam "y" .num, mkParam "radius" .num,
   mkParam "startAngle" .num, mkParam "endAngle" .num]

def drawImageOptParams : List Param :=
  [mkParamOpt "sx" .num, mkParamOpt "sy" .num,
   mkParamOpt "sWidth" .num, mkParamOpt "sHeight" .num,
   mkParamOpt "dx" .num, mkParamOpt "dy" .num,
   mkParamOpt "dWidth" .num, mkParamOpt "dHeight" .num]

def drawImageAllParams : List Param :=
  [mkParam "sx" .num, mkParam "sy" .num,
   mkParam "sWidth" .num, mkParam "sHeight" .num,
   mkParam "dx" .num, mkParam "dy" .num,
   mkParam "dWidth" .num, mkParam "dHeight" .num]

def gcoValues : List String :=
  ["source-over", "source-atop", "source-in", "source-out",
   "destination-over", "destination-atop", "destination-in",
   "destination-out", "lighter", "copy", "xor"]

def quadParams : List Param :=
  [mkParam "cpx" .num, mkParam "cpy" .num, mkParam "x" .num, mkParam "y" .num]

def cubicParams : List Param :=
  [mkParam "cp1x" .num, mkParam "cp1y" .num, mkParam "cp2x" .num,
   mkParam "cp2y" .num, mkParam "x" .num, mkParam "y" .num]

def createPatternParams : List Param :=
  [mkParam "image" (.objName "Image"),
   mkParam "style" (strUnion ["repeat", "repeat-x", "repeat-y", "no-repeat"])]

def getImageDataParams : List Param :=
  [mkParamOpt "sx" .num, mkParamOpt "sy" .num, mkParamOpt "sw" .num, mkParamOpt "sh" .num]

/-! Transcription of src/types/index.d.ts. -/

def idxCanvas : Decl := .classD "Canvas"
  [.ctor [mkParamNote "width" .num ["Must be positive. Float value will be truncated to integer."],
          mkParamNote "height" .num ["Must be positive. Float value will be truncated to integer."]] none,
   .prop (mkPropRO "width" .num),
   .prop (mkPropRO "height" .num),
   .prop (mkPropD "fillStyle" .str "#000"),
   .prop (mkPropD "strokeStyle" .str "#000"),
   .prop (mkPropOptD "shadowColor" .str "undefined"),
   .prop (mkPropD "shadowBlur" .num "0"),
   .prop (mkPropD "shadowOffsetX" .num "0"),
   .prop (mkPropD "shadowOffsetY" .num "0"),
   .prop (mkPropD "lineCap" (strUnion ["butt", "round", "square"]) "butt"),
   .prop (mkPropD "lineJoin" (strUnion ["bevel", "round", "miter"]) "miter"),
   .prop (mkPropD "lineWidth" .num "1.0"),
   .prop (mkPropD "miterLimit" .num "0"),
   .prop (mkPropD "globalAlpha" .num "1.0"),
   .prop (mkPropD "globalCompositeOperation" (strUnion gcoValues) "source-over"),
   .prop (mkPropD "lineDash" (.arrT .num) "[]"),
   .prop (mkPropD "font" .str "12pt Helvetica"),
   .prop (mkPropD "textAlign" (strUnion ["left", "right", "center", "start", "end"]) "left"),
   .prop (mkPropOptD "textbaseLine" (strUnion ["top", "middle", "alphabetic", "bottom"]) "undefined"),
   .method (mkMethod "getContext" [] .thisT),
   .method (mkMethod "rect" rectParams .void),
   .method (mkMethod "fillRect" rectParams .void),
   .method (mkMethod "strokeRect" rectParams .void),
   .method (mkMethod "clearRect" rectParams .void),
   .method (mkMethod "createLinearGradient" linGradParams (.objName "Gradient")),
   .method (mkMethod "createRadialGradient" radGradParamsDoc (.objName "Gradient")),
   .method (mkMethod "createPattern" createPatternParams (.objName "PatternObject")),
   .method (mkMethod "drawImage"
     [mkParam "image" (.objName "Image"), mkParam "dx" .num, mkParam "dy" .num] .void),
   .method (mkMethod "drawImage"
     [mkParam "image" (.objName "Image"), mkParam "dx" .num, mkParam "dy" .num,
      mkParam "dWidth" .num, mkParam "dHeight" .num] .void),
   .method (mkMethod "drawImage"
     (mkParam "image" (.objName "Image") :: drawImageOptParams) .void),
   .method (mkMethod "beginPath" [] .void),
   .method (mkMethod "closePath" [] .void),
   .method (mkMethod "stroke" [] .void),
   .method (mkMethod "fill" [] .void),
   .method (mkMethod "clip" [] .void),
   .method (mkMethod "moveTo" xyParams .void),
   .method (mkMethod "lineTo" xyParams .void),
   .method (mkMethod "quadraticCurveTo" quadParams .void),
   .method (mkMethod "bezierCurveTo" cubicParams .void),
   .method (mkMethod "arc" (arcBaseParams ++ [mkParamOpt "counterclockwise" .boolean]) .void),
   .method (mkMethod "isPointInPath" xyParams .boolean),
   .method (mkMethod "scale" xyParams .void),
   .method (mkMethod "rotate" [mkParam "angle" .num] .void),
   .method (mkMethod "translate" xyParams .void),
   .method (mkMethod "transform" matrixParams .void),
   .method (mkMethod "setTransform" matrixParams .void),
   .method (mkMethod "fillText"
     [mkParam "text" .str, mkParam "x" .num, mkParam "y" .num, mkParamOpt "maxWidth" .num] .void),
   .method (mkMethod "strokeText" [mkParam "text" .str, mkParam "x" .num, mkParam "y" .num] .void),
   .method (mkMethod "measureText" [mkParam "text" .str] (.objName "SizeObject")),
   .method (mkMethod "createImageData" [mkParam "imageData" (.objName "ImageData")] (.objName "ImageData")),
   .method (mkMethod "createImageData" [mkParam "width" .num, mkParam "height" .num] (.objName "ImageData")),
   .method (mkMethod "createImageData"
     [mkParam "ImageDataOrWidth" (.orT (.objName "ImageData") .num), mkParamOpt "height" .num]
     (.objName "ImageData")),
   .method (mkMethod "getImageData" getImageDataParams (.objName "ImageData")),
   .method (mkMethod "putImageData"
     [mkParam "imageData" (.objName "ImageData"), mkParam "dx" .num, mkParam "dy" .num] .void),
   .method (mkMethod "save" [] .void),
   .method (mkMethod "restore" [] .void)]

def idxImage : Decl := .interfaceD "Image"
  [.prop (mkPropRO "name" .str),
   .prop (mkPropRO "size" (.objName "SizeObject")),
   .prop (mkPropRO "aspectRatio" .num),
   .prop (mkProp "properties" (.mapT .str .anyT)),
   .method (mkMethod "getProperty" [mkParam "key" .str] .anyT),
   .method (mkMethod "setProperty" [mkParam "key" .str, mkParam "value" .anyT] .void),
   .method (mkMethod "scaledSizeWithLongestEdge" [mkParam "longestEdge" .num] (.objName "SizeObject")),
   .method (mkMethod "sizeToFitLongestEdge" [mkParam "length" .num] (.objName "SizeObject"))]

def addColorStopNoteParams : List Param :=
  [mkParamNote "offset" .num
     ["A number between 0 and 1, inclusive, representing the position of the color stop."],
   mkParam "color" .str]

def idxGradient : Decl := .interfaceD "Gradient"
  [.method (mkMethod "addColorStop" addColorStopNoteParams .void)]

def idxPattern : Decl := .interfaceD "PatternObject"
  [.prop (mkProp "image" (.objName "Image")),
   .prop (mkProp "style" .unknownT)]

def idxSizeObject : Decl := .interfaceD "SizeObject"
  [.prop (mkProp "x" .num), .prop (mkProp "y" .num)]

def idxImageData : Decl := .interfaceD "ImageData"
  [.prop (mkPropRO "data" (.arrT .num)),
   .prop (mkPropRO "width" .num),
   .prop (mkPropRO "height" .num)]

def idxOutput : Decl := .classD "Output"
  [.ctor [mkParam "context" (.objName "Canvas"), mkParam "name" .str] none,
   .ctor [mkParam "context" (.objName "Canvas"), mkParam "name" .str, mkParamOpt "type" .str] none,
   .prop (mkProp "canvas" (.objName "Canvas")),
   .prop (mkProp "name" .str),
   .prop (mkProp "UTI" .str),
   .method (mkMethod "addToQueue" [] .void)]

def idxConfiguration : Decl := .interfaceD "Configuration"
  [.prop (mkProp "arguments" (.arrT .str)),
   .prop (mkPropRO "images" (.arrT (.objName "Image"))),
   .prop (mkPropRO "size" (.objName "SizeObject")),
   .prop (mkPropROD "longestEdge" .num "0"),
   .prop (mkPropD "outputPath" .str "undefined"),
   .method (mkMethod "requestedSizeForSize" [mkParam "size" (.objName "SizeObject")] (.objName "SizeObject"))]

def idxConsole : Decl := .interfaceD "Console"
  [.method (mkMethod "log" [mkParam "str" .str] .void)]

def indexDtsDecls : List Decl :=
  [idxCanvas, idxImage, idxGradient, idxPattern, idxSizeObject, idxImageData,
   idxOutput, idxConfiguration, idxConsole,
   .varD "sips" (.objName "Configuration") none,
   .varD "console" (.objName "Console") none,
   .funD (mkMethod "print" [mkParam "str" .str] .void)]

/-! Transcription of src/unnamed/part_000, first revision (lines 1-514). -/

def v1Canvas : Decl := .classD "Canvas"
  [.ctor [mkParamNote "width" .num ["unsigned integer"],
          mkParamNote "height" .num ["unsigned integer"]] none,
   .prop (mkPropD "fillStyle" .str "#000"),
   .prop (mkPropD "strokeStyle" .str "#000"),
   .prop (mkPropOptD "shadowColor" .str "undefined"),
   .prop (mkPropD "shadowBlur" .num "0"),
   .prop (mkPropD "shadowOffsetX" .num "0"),
   .prop (mkPropD "shadowOffsetY" .num "0"),
   .prop (mkPropD "lineCap" (strUnion ["butt", "round", "square"]) "butt"),
   .prop (mkPropD "lineJoin" (strUnion ["bevel", "round", "miter"]) "miter"),
   .prop (mkPropD "lineWidth" .num "1.0"),
   .prop (mkPropD "miterLimit" .num "0"),
   .prop (mkPropD "globalAlpha" .num "1.0"),
   .prop (mkPropD "globalCompositeOperation" (strUnion gcoValues) "source-over"),
   .prop (mkPropD "lineDash" (.arrT .num) "[]"),
   .prop (mkPropD "font" .str "12pt Helvetica"),
   .prop (mkPropD "textAlign" (strUnion ["left", "right", "center", "start", "end"]) "left"),
   .prop (mkPropOptD "textbaseLine" (strUnion ["top", "middle", "alphabetic", "bottom"]) "undefined"),
   .prop (mkPropOptD "fontName" .str "undefined"),
   .prop (mkPropOptD "fontSize" .num "undefined"),
   .method (mkMethod "getContext" [] .thisT),
   .method (mkMethod "rect" rectParams .void),
   .method (mkMethod "fillRect" rectParams .void),
   .method (mkMethod "strokeRect" rectParams .void),
   .method (mkMethod "clearRect" rectParams .void),
   .method (mkMethod "createLinearGradient" linGradParams (.objName "Gradient")),
   .method (mkMethod "createRadialGradient" radGradParamsPlain (.objName "Gradient")),
   .method (mkMethod "createPattern" createPatternParams (.objName "PatternObject")),
   .method (mkMethod "drawImage"
     [mkParam "image" (.objName "Image"), mkParam "dx" .num, mkParam "dy" .num] .void),
   .method (mkMethod "drawImage"
     [mkParam "image" (.objName "Image"), mkParam "dx" .num, mkParam "dy" .num,
      mkParam "dWidth" .num, mkParam "dHeight" .num] .void),
   .method (mkMethod "drawImage"
     (mkParam "image" (.objName "Image") :: drawImageOptParams) .void),
   .method (mkMethod "beginPath" [] .void),
   .method (mkMethod "closePath" [] .void),
   .method (mkMethod "stroke" [] .void),
   .method (mkMethod "fill" [] .void),
   .method (mkMethod "clip" [] .void),
   .method (mkMethod "moveTo" xyParams .void),
   .method (mkMethod "lineTo" xyParams .void),
   .method (mkMethod "quadraticCurveTo" quadParams .void),
   .method (mkMethod "bezierCurveTo" cubicParams .void),
   .method (mkMethod "arc" arcBaseParams .void),
   .method (mkMethod "arc" (arcBaseParams ++ [mkParamOpt "counterclockwise" .boolean]) .void),
   .method (mkMethod "isPointInPath" xyParams .boolean),
   .method (mkMethod "scale" xyParams .void),
   .method (mkMethod "rotate" [mkParam "angle" .num] .void),
   .method (mkMethod "translate" xyParams .void),
   .method (mkMethod "transform" matrixParams .void),
   .method (mkMethod "setTransform" matrixParams .void),
   .method (mkMethod "drawText"
     [mkParam "text" .str, mkParam "x" .num, mkParam "y" .num, mkParam "attrs" .str] .void),
   .method (mkMethod "fillText"
     [mkParam "text" .str, mkParam "x" .num, mkParam "y" .num, mkParam "maxWidth" .num] .void),
   .method (mkMethod "strokeText" [mkParam "text" .str, mkParam "x" .num, mkParam "y" .num] .void),
   .method (mkMethod "measureText" [mkParam "text" .str] (.mapT .str .anyT)),
   .method (mkMethod "save" [] .void),
   .method (mkMethod "restore" [] .void),
   .method (mkMethod "applyOriginTransform" [] .void)]

def v1Image : Decl := .classD "Image"
  [.prop (mkPropRO "name" .str),
   .prop (mkPropRO "size" (.objName "SizeObject")),
   .prop (mkPropRO "aspectRatio" .num),
   .prop (mkProp "properties" (.mapT .str .anyT)),
   .prop (mkPropOpt "modifiedProperties" .unknownT),
   .method (mkMethod "getProperty" [mkParam "key" .str] .anyT),
   .method (mkMethod "setProperty" [mkParam "key" .str, mkParam "value" .anyT] .void),
   .method (mkMethod "scaledSizeWithLongestEdge" [mkParam "longestEdge" .num] (.objName "SizeObject")),
   .method (mkMethod "sizeToFitLongestEdge" [mkParam "length" .num] (.objName "SizeObject"))]

def v1Gradient : Decl := .classD "Gradient"
  [.prop (mkProp "type" .num),
   .prop (mkProp "startPt" (.objName "PointObject")),
   .prop (mkProp "endPt" (.objName "PointObject")),
   .prop (mkProp "startRadius" .num),
   .prop (mkProp "endRadius" .num),
   .prop (mkProp "stops" (.arrT (.objName "GradientStop"))),
   .method (mkMethod "addColorStop" [mkParam "offset" .num, mkParam "color" .str] .void)]

def v1GradientStop : Decl := .classD "GradientStop"
  [.prop (mkProp "location" .num),
   .prop (mkProp "colorStyle" .str)]

def v1Pattern : Decl := .classD "PatternObject"
  [.prop (mkProp "image" (.objName "Image")),
   .prop (mkProp "style" .unknownT)]

def v1RectObject : Decl := .classD "RectObject"
  [.ctor rectParams none,
   .prop (mkProp "origin" (.objName "PointObject")),
   .prop (mkProp "size" (.objName "SizeObject")),
   .prop (mkProp "x" .num),
   .prop (mkProp "y" .num),
   .prop (mkProp "width" .num),
   .prop (mkProp "height" .num)]

def v1PointObject : Decl := .classD "PointObject"
  [.prop (mkProp "width" .num),
   .prop (mkProp "height" .num)]

def v1SizeObject : Decl := .classD "SizeObject"
  [.prop (mkProp "x" .num), .prop (mkProp "y" .num)]

def v1Output : Decl := .classD "Output"
  [.ctor [mkParam "context" (.objName "Canvas"), mkParam "name" .str] none,
   .ctor [mkParam "context" (.objName "Canvas"), mkParam "name" .str, mkParamOpt "type" .str] none,
   .prop (mkProp "canvas" (.objName "Canvas")),
   .prop (mkProp "name" .str),
   .prop (mkProp "image" (.objName "Image")),
   .prop (mkPropRO "outputDir" .str),
   .method (mkMethod "addToQueue" [] .void),
   .method (mkMethod "write" [] .void)]

def v1Configuration : Decl := .classD "Configuration"
  [.prop (mkProp "arguments" (.arrT .str)),
   .prop (mkProp "images" (.arrT (.objName "Image"))),
   .prop (mkProp "size" (.objName "SizeObject")),
   .prop (mkPropD "longestEdge" .num "0"),
   .prop (mkPropD "outputPath" .str "currentDirectory"),
   .prop (mkProp "outputDir" .str),
   .method (mkMethod "requestedSizeForSize" [mkParam "size" (.objName "SizeObject")] (.objName "SizeObject"))]

def v1Console : Decl := .classD "Console"
  [.prop (mkProp "handler" .unknownT),
   .method (mkMethod "log" [mkParam "str" .str] .void)]

def part000v1Decls : List Decl :=
  [v1Canvas, v1Image, v1Gradient, v1GradientStop, v1Pattern, v1RectObject,
   v1PointObject, v1SizeObject, v1Output, v1Configuration, v1Console,
   .varD "sips" (.objName "Configuration") none,
   .funD (mkMethod "print" [mkParam "str" .str] .void)]

/-! Transcription of src/unnamed/part_000, second revision (lines 515-1491). -/

def v3Canvas : Decl := .classD "Canvas"
  [.ctor [mkParamNote "width" .num ["Must be positive. Float value will be truncated to integer."],
          mkParamNote "height" .num ["Must be positive. Float value will be truncated to integer."]] none,
   .prop (mkPropRO "width" .num),
   .prop (mkPropRO "height" .num),
   .prop (mkPropD "fillStyle" (.orT .str (.objName "Gradient")) "#000"),
   .prop (mkPropD "strokeStyle" .str "#000"),
   .prop (mkPropOptD "shadowColor" .str "undefined"),
   .prop (mkPropD "shadowBlur" .num "0"),
   .prop (mkPropD "shadowOffsetX" .num "0"),
   .prop (mkPropD "shadowOffsetY" .num "0"),
   .prop (mkPropD "lineCap" (strUnion ["butt", "round", "square"]) "butt"),
   .prop (mkPropD "lineJoin" (strUnion ["bevel", "round", "miter"]) "miter"),
   .prop (mkPropD "lineWidth" .num "1.0"),
   .prop (mkPropD "miterLimit" .num "0"),
   .prop (mkPropD "globalAlpha" .num "1.0"),
   .prop (mkPropD "globalCompositeOperation" (strUnion gcoValues) "source-over"),
   .prop (mkPropD "lineDash" (.arrT .num) "[]"),
   .prop (mkPropD "font" .str "12pt Helvetica"),
   .prop (mkPropD "textAlign" (strUnion ["left", "right", "center", "start", "end"]) "left"),
   .prop (mkPropD "textBaseline" (strUnion ["top", "middle", "alphabetic", "bottom"]) "alphabetic"),
   .method (mkMethod "getContext" [] .thisT),
   .method (mkMethod "rect" rectParams .void),
   .method (mkMethod "fillRect" rectParams .void),
   .method (mkMethod "strokeRect" rectParams .void),
   .method (mkMethod "clearRect" rectParams .void),
   .method (mkMethod "createLinearGradient" linGradParams (.objName "Gradient")),
   .method (mkMethod "createRadialGradient" radGradParamsDoc (.objName "Gradient")),
   .method (mkMethod "createPattern" createPatternParams (.objName "PatternObject")),
   .method (mkMethod "drawImage" [mkParam "image" (.objName "Image")] .void),
   .method (mkMethod "drawImage"
     [mkParam "image" (.objName "Image"), mkParam "dx" .num, mkParam "dy" .num] .void),
   .method (mkMethod "drawImage"
     [mkParam "image" (.objName "Image"), mkParam "dx" .num, mkParam "dy" .num,
      mkParam "dWidth" .num, mkParam "dHeight" .num] .void),
   .method (mkMethod "drawImage"
     (mkParam "image" (.objName "Image") :: drawImageAllParams) .void),
   .method (mkMethod "drawImage"
     (mkParam "image" (.objName "Image") :: drawImageOptParams) .void),
   .method (mkMethod "beginPath" [] .void),
   .method (mkMethod "closePath" [] .void),
   .method (mkMethod "stroke" [] .void),
   .method (mkMethod "fill" [] .void),
   .method (mkMethod "clip" [] .void),
   .method (mkMethod "moveTo" xyParams .void),
   .method (mkMethod "lineTo" xyParams .void),
   .method (mkMethod "quadraticCurveTo" quadParams .void),
   .method (mkMethod "bezierCurveTo" cubicParams .void),
   .method (mkMethod "arc"
     [mkParam "x" .num, mkParam "y" .num,
      mkParamNote "radius" .num ["Must be positive."],
      mkParam "startAngle" .num, mkParam "endAngle" .num,
      mkParamDefault "counterclockwise" .boolean "false"] .void),
   .method (mkMethod "isPointInPath" xyParams .boolean),
   .method (mkMethod "scale" xyParams .void),
   .method (mkMethod "rotate" [mkParam "angle" .num] .void),
   .method (mkMethod "translate" xyParams .void),
   .method (mkMethod "transform" matrixParams .void),
   .method (mkMethod "setTransform" matrixParams .void),
   .method (mkMethod "fillText"
     [mkParam "text" .str, mkParam "x" .num, mkParam "y" .num,
      mkParamDefault "maxWidth" .num "Infinity"] .void),
   .method (mkMethod "strokeText" [mkParam "text" .str, mkParam "x" .num, mkParam "y" .num] .void),
   .method (mkMethod "measureText" [mkParam "text" .str] (.objName "Size")),
   .method (mkMethod "createImageData" [mkParam "imageData" (.objName "ImageData")] (.objName "ImageData")),
   .method (mkMethod "createImageData" [mkParam "width" .num, mkParam "height" .num] (.objName "ImageData")),
   .method (mkMethod "createImageData"
     [mkParam "ImageDataOrWidth" (.orT (.objName "ImageData") .num), mkParamOpt "height" .num]
     (.objName "ImageData")),
   .method (mkMethod "getImageData" getImageDataParams (.objName "ImageData")),
   .method (mkMethod "putImageData"
     [mkParam "imageData" (.objName "ImageData"), mkParam "dx" .num, mkParam "dy" .num] .void),
   .method (mkMethod "save" [] .void),
   .method (mkMethod "restore" [] .void)]

def v3Image : Decl := .interfaceD "Image"
  [.prop (mkPropRO "name" .str),
   .prop (mkPropRO "size" (.objName "Size")),
   .prop (mkPropRO "aspectRatio" .num),
   .prop (mkProp "properties" (.mapT .str .anyT)),
   .method (mkMethod "getProperty" [mkParam "key" .str] .anyT),
   .method (mkMethod "setProperty" [mkParam "key" .str, mkParam "value" .anyT] .void),
   .method (mkMethod "scaledSizeWithLongestEdge" [mkParam "longestEdge" .num] (.objName "Size")),
   .method (mkMethod "sizeToFitLongestEdge" [mkParam "length" .num] (.objName "Size"))]

def v3Gradient : Decl := .interfaceD "Gradient"
  [.method (mkMethod "addColorStop" addColorStopNoteParams .void)]

def v3Pattern : Decl := .interfaceD "PatternObject"
  [.prop (mkProp "image" .undefinedT),
   .prop (mkProp "style" .undefinedT)]

def v3Rect : Decl := .classD "Rect"
  [.ctor rectParams none,
   .prop (mkProp "x" .num),
   .prop (mkProp "y" .num),
   .prop (mkProp "width" .num),
   .prop (mkProp "height" .num),
   .prop (mkPropRO "origin" (.objName "Point")),
   .prop (mkPropRO "size" (.objName "Size"))]

def v3Point : Decl := .classD "Point"
  [.ctor xyParams none,
   .prop (mkProp "x" .num),
   .prop (mkProp "y" .num)]

def v3Size : Decl := .classD "Size"
  [.ctor [mkParam "width" .num, mkParam "height" .num] none,
   .prop (mkProp "width" .num),
   .prop (mkProp "height" .num)]

def v3ImageData : Decl := .interfaceD "ImageData"
  [.prop (mkPropRO "data" (.arrT .num)),
   .prop (mkPropRO "width" .num),
   .prop (mkPropRO "height" .num)]

def v3UTIAlias : Decl := .typeAliasD "UTI"
  (strUnion ["public.png", "public.jpeg", "public.tiff", "com.compuserve.gif", "com.microsoft.bmp"])

def v3FileExtAlias : Decl := .typeAliasD "FileExtension"
  (strUnion ["png", "jpeg", "jpg", "tiff", "gif", "bmp"])

def v3Output : Decl := .classD "Output"
  [.ctor [mkParam "context" (.objName "Canvas"), mkParam "name" .str,
          mkParamOpt "type" (.orT (.objName "FileExtension") (.objName "UTI"))] none,
   .prop (mkProp "canvas" (.objName "Canvas")),
   .prop (mkProp "name" .str),
   .prop (mkProp "UTI" (.objName "UTI")),
   .method (mkMethod "addToQueue" [] .void)]

def v3Configuration : Decl := .interfaceD "Configuration"
  [.prop (mkPropRO "arguments" (.arrT .str)),
   .prop (mkPropRO "images" (.arrT (.objName "Image"))),
   .prop (mkPropRO "size" (.objName "Size")),
   .prop (mkPropROD "longestEdge" .num "0"),
   .prop (mkPropROD "outputPath" .str "undefined"),
   .method (mkMethod "requestedSizeForSize" [mkParam "size" (.objName "Size")] (.objName "Size"))]

def v3Console : Decl := .interfaceD "Console"
  [.method (mkMethod "log" [mkParam "str" .anyT] .void)]

def part000v3Decls : List Decl :=
  [v3Canvas, v3Image, v3Gradient, v3Pattern, v3Rect, v3Point, v3Size,
   v3ImageData, v3UTIAlias, v3FileExtAlias, v3Output, v3Configuration, v3Console,
   .varD "sips" (.objName "Configuration") none,
   .varD "console" (.objName "Console") none,
   .funD (mkMethod "print" [mkParam "str" .anyT] .void)]

/-- Every declaration of every revision in the repository's source files. -/
def allDecls : List Decl := indexDtsDecls ++ part000v1Decls ++ part000v3Decls

/-! Scans over the transcribed declarations. -/

/-- A member is a pure signature: no executable body for methods and
constructors, no code-level initializer for properties. -/
def memberSignatureOnly : Member → Bool
  | .prop ps => ps.initVal.isNone
  | .method ms => ms.body.isNone
  | .ctor _ b => b.isNone

/-- A declaration supplies no defining equation, algorithm or
implementation of any kind. -/
def declSignatureOnly : Decl → Bool
  | .classD _ ms => ms.all memberSignatureOnly
  | .interfaceD _ ms => ms.all memberSignatureOnly
  | .varD _ _ iv => iv.isNone
  | .funD ms => ms.body.isNone
  | .typeAliasD _ _ => true

def paramNoNotes (pr : Param) : Bool := pr.docNotes.isEmpty

def memberNoProseNotes : Member → Bool
  | .prop ps => ps.docNotes.isEmpty
  | .method ms => ms.params.all paramNoNotes
  | .ctor ps _ => ps.all paramNoNotes

/-- A declaration states no value-range constraint or precondition in the
prose of its doc comments. -/
def declNoProseConstraint : Decl → Bool
  | .classD _ ms => ms.all memberNoProseNotes
  | .interfaceD _ ms => ms.all memberNoProseNotes
  | .varD _ _ _ => true
  | .funD ms => ms.params.all paramNoNotes
  | .typeAliasD _ _ => true

/-- The method signatures declared by a declaration (the free function
counts as one). -/
def declMethods : Decl → List MethodSig
  | .classD _ ms => ms.filterMap (fun mem => match mem with | .method s => some s | _ => none)
  | .interfaceD _ ms => ms.filterMap (fun mem => match mem with | .method s => some s | _ => none)
  | .funD s => [s]
  | _ => []

/-- The parameters of the constructors declared by a declaration. -/
def declCtorParams : Decl → List Param
  | .classD _ ms => ms.flatMap (fun mem => match mem with | .ctor ps _ => ps | _ => [])
  | .interfaceD _ ms => ms.flatMap (fun mem => match mem with | .ctor ps _ => ps | _ => [])
  | _ => []

def methodNames (d : Decl) : List String := (declMethods d).map (fun s => s.mname)

/-- The properties declared by a class or interface declaration. -/
def propsOf : Decl → List PropSig
  | .classD _ ms => ms.filterMap (fun mem => match mem with | .prop q => some q | _ => none)
  | .interfaceD _ ms => ms.filterMap (fun mem => match mem with | .prop q => some q | _ => none)
  | _ => []

def propNames (d : Decl) : List String := (propsOf d).map (fun q => q.pname)

/-- The (property name, documented default value) pairs of a declaration. -/
def propDefaults (d : Decl) : List (String × String) :=
  (propsOf d).filterMap (fun q => q.defaultDoc.map (fun s => (q.pname, s)))

/-- Does a type mention a function (callback) type anywhere? -/
def containsFunT : TsType → Bool
  | .funT _ _ => true
  | .orT a b => containsFunT a || containsFunT b
  | .arrT t => containsFunT t
  | .mapT k v => containsFunT k || containsFunT v
  | .promiseT t => containsFunT t
  | _ => false

/-- Does a type mention a Promise anywhere? -/
def containsPromise : TsType → Bool
  | .promiseT _ => true
  | .orT a b => containsPromise a || containsPromise b
  | .arrT t => containsPromise t
  | .mapT k v => containsPromise k || containsPromise v
  | .funT a b => containsPromise a || containsPromise b
  | _ => false

/-- Does a type mention an error type anywhere? -/
def mentionsErrorType : TsType → Bool
  | .objName s => s = "Error" || s = "Exception"
  | .orT a b => mentionsErrorType a || mentionsErrorType b
  | .arrT t => mentionsErrorType t
  | .mapT k v => mentionsErrorType k || mentionsErrorType v
  | .promiseT t => mentionsErrorType t
  | .funT a b => mentionsErrorType a || mentionsErrorType b
  | _ => false

/-- A plain value return type: void, boolean, or an object-like type (a
named object/interface type, the canvas itself, a map, an array, or the
unconstrained `any`, which in these files annotates arbitrary plain
values such as image properties). -/
def returnsPlainValue : TsType → Bool
  | .void => true
  | .boolean => true
  | .objName _ => true
  | .thisT => true
  | .mapT _ _ => true
  | .arrT _ => true
  | .anyT => true
  | _ => false

/-- Same set of (name, value) pairs, ignoring order. -/
def samePairs (l1 l2 : List (String × String)) : Bool :=
  l1.all (fun q => l2.contains q) && l2.all (fun q => l1.contains q)

/-- The Canvas-state defaults exactly as the specification's claim
enumerates them (a transcription of the claim's words, kept separate from
the source transcription so the two can be compared). -/
def claimedCanvasDefaults : List (String × String) :=
  [("fillStyle", "#000"), ("strokeStyle", "#000"),
   ("shadowBlur", "0"), ("shadowOffsetX", "0"), ("shadowOffsetY", "0"),
   ("miterLimit", "0"), ("lineCap", "butt"), ("lineJoin", "miter"),
   ("lineWidth", "1.0"), ("globalAlpha", "1.0"),
   ("globalCompositeOperation", "source-over"), ("lineDash", "[]"),
   ("font", "12pt Helvetica"), ("textAlign", "left"),
   ("shadowColor", "undefined")]

/-! Behavioral model of the declared-but-unimplemented operations.
The sources declare these operations with doc-comment contracts and no
body; the implementation lives in the external sips binary.  Each
definition below is modelled from the documented contract. -/

/-- A size in pixels, as held by an image (`Size` / `SizeObject`). -/
structure Size where
  width : ℚ
  height : ℚ
  deriving DecidableEq

/-- An image passed to sips: a name and a pixel size. -/
structure Image where
  name : String
  size : Size
  deriving DecidableEq

/-- Modelled from the spec: the internal `aspectRatio` property of an
image — the ratio of the image's width to its height. -/
def Image.aspectRatio (i : Image) : ℚ := i.size.width / i.size.height

/-- Modelled from the spec: `sizeToFitLongestEdge(length)` is declared in
all three revisions with no body; its documented contract is "Return the
size that will contain the image with the longest edge set to length.
Maintains aspect ratio."  The longer edge is scaled to `len` and the
other edge is scaled by the same factor. -/
def Image.sizeToFitLongestEdge (i : Image) (len : ℚ) : Size :=
  if i.size.height ≤ i.size.width then
    ⟨len, i.size.height * len / i.size.width⟩
  else
    ⟨i.size.width * len / i.size.height, len⟩

/-- A color stop of a gradient, as declared by `GradientStop`: a
`location` (offset) paired with a `colorStyle` (color). -/
structure ColorStop where
  location : ℚ
  colorStyle : String
  deriving DecidableEq

/-- A gradient object, as declared by the `Gradient` class: it holds a
list of color stops. -/
structure GradientObj where
  stops : List ColorStop
  deriving DecidableEq

/-- Modelled from the spec: `addColorStop(offset, color)` "Adds a new
color stop, defined by an offset and a color, to a given canvas
gradient" — declared with no body; the new stop is appended to the
gradient's stop list. -/
def GradientObj.addColorStop (g : GradientObj) (offset : ℚ) (color : String) : GradientObj :=
  ⟨g.stops ++ [⟨offset, color⟩]⟩

/-- The drawing state of a canvas: the styleable properties the
declaration files document, plus the current transformation matrix. -/
structure CanvasState where
  fillStyle : String
  strokeStyle : String
  shadowColor : Option String
  shadowBlur : ℚ
  shadowOffsetX : ℚ
  shadowOffsetY : ℚ
  lineCap : String
  lineJoin : String
  lineWidth : ℚ
  miterLimit : ℚ
  globalAlpha : ℚ
  globalCompositeOperation : String
  lineDash : List ℚ
  font : String
  textAlign : String
  textbaseLine : Option String
  transformMatrix : ℚ × ℚ × ℚ × ℚ × ℚ × ℚ
  deriving DecidableEq

/-- Modelled from the spec: the documented default drawing state of a
freshly constructed canvas (the defaultValue tags of index.d.ts). -/
def defaultCanvasState : CanvasState :=
  ⟨"#000", "#000", none, 0, 0, 0, "butt", "miter", 1, 0, 1,
   "source-over", [], "12pt Helvetica", "left", none, (1, 0, 0, 1, 0, 0)⟩

/-- A canvas: its dimensions, its current drawing state, and the stack of
saved drawing states. -/
structure Canvas where
  width : ℕ
  height : ℕ
  state : CanvasState
  stack : List CanvasState
  deriving DecidableEq

/-- Modelled from the spec: `new Canvas(width, height)` — a fresh canvas
holds the documented default drawing state and an empty saved-state
stack. -/
def Canvas.init (w h : ℕ) : Canvas := ⟨w, h, defaultCanvasState, []⟩

/-- Modelled from the spec: `save()` "Saves the entire state of the
canvas by pushing the current state onto a stack." -/
def Canvas.save (c : Canvas) : Canvas := { c with stack := c.state :: c.stack }

/-- Modelled from the spec: `restore()` "Restores the most recently saved
canvas state by popping the top entry in the drawing state stack.  If
there is no saved state, this method does nothing." -/
def Canvas.restore (c : Canvas) : Canvas :=
  match c.stack with
  | [] => c
  | s :: rest => { c with state := s, stack := rest }

/-- An arbitrary mutation of the drawing state (setting fillStyle, the
transform, and so on, between a save and a restore). -/
def Canvas.setState (c : Canvas) (s : CanvasState) : Canvas := { c with state := s }

/-- Modelled from the spec: `getContext()` — "Contrary to DOM API,
Context object is identical to Canvas object. It always returns
itself." -/
def Canvas.getContext (c : Canvas) : Canvas := c

/-- Concrete image used by the C8 witness. -/
def imgEx : Image := ⟨"example.png", ⟨4, 2⟩⟩

/-- Concrete canvas used by the C9 witness. -/
def canvasEx : Canvas := Canvas.init 100 50

/-- Concrete mutated drawing state used by the C9 witness. -/
def mutatedStateEx : CanvasState :=
  ⟨"cyan", "#0ff", some "red", 3, 1, 2, "round", "bevel", 5, 2, 1,
   "xor", [4, 2], "42pt Futura", "center", some "top", (2, 0, 0, 2, 10, 10)⟩

/-! Claim theorems. -/

/-- C1: every operation declared in the source files (every method of
Canvas, Image, Gradient, Output, Configuration, Console, and the free
function print — indeed every declaration of all three revisions) is a
bare type signature: no method, constructor, free function or var
carries a defining equation, initializer, or executable body of any
kind. -/
theorem c1_operations_are_bare_signatures : allDecls.all declSignatureOnly = true := rfl

/-- C2: the declared API surface covers the enumerated feature groups:
Canvas declares the path-construction, transform, gradient-creation,
text and pixel-buffer operations listed by the specification;
Configuration exposes `images : Image[]`; and Output provides
`addToQueue`. -/
theorem c2_api_surface_covers_enumerated_groups :
    (["beginPath", "moveTo", "lineTo", "quadraticCurveTo", "bezierCurveTo", "arc",
      "closePath"].all (fun s => (methodNames idxCanvas).contains s)
     && ["scale", "rotate", "translate", "transform", "setTransform"].all
          (fun s => (methodNames idxCanvas).contains s)
     && ["createLinearGradient", "createRadialGradient"].all
          (fun s => (methodNames idxCanvas).contains s)
     && ["fillText", "strokeText", "measureText"].all
          (fun s => (methodNames idxCanvas).contains s)
     && ["createImageData", "getImageData", "putImageData"].all
          (fun s => (methodNames idxCanvas).contains s)
     && (propsOf idxConfiguration).any
          (fun q => q.pname == "images" && q.ptype == .arrT (.objName "Image"))
     && (methodNames idxOutput).contains "addToQueue") = true := rfl

/-- C3 counterexample: the claim "the files state no value-range
constraint, no precondition" is false — the Gradient declaration of
index.d.ts states, in the doc comment of addColorStop's offset
parameter, the precondition "A number between 0 and 1, inclusive" (and
the Canvas constructor states "Must be positive"), so the no-constraint
scan fails on the transcribed sources. -/
theorem c3_counterexample_prose_preconditions_exist :
    declNoProseConstraint idxGradient = false ∧
    allDecls.all declNoProseConstraint = false := ⟨rfl, rfl⟩

/-- C3 amended: every declared field and operation is a bare
name-and-type signature — no body, no initializer, hence no enforced
invariant, lifecycle or ownership — while value-range constraints and
preconditions do appear, but only as prose in doc comments. -/
theorem c3_amended_constraints_only_in_prose :
    allDecls.all declSignatureOnly = true ∧
    allDecls.any (fun d => !(declNoProseConstraint d)) = true := ⟨rfl, rfl⟩

/-- C4 counterexample: the claim's enumeration of documented defaults is
not exhaustive — part_000's second revision documents the default
"alphabetic" for Canvas.textBaseline (the very lines the claim cites)
and index.d.ts documents the default undefined for textbaseLine, neither
of which is in the claim's list, so the documented default set differs
from the claimed set. -/
theorem c4_counterexample_textBaseline_default_missing :
    ("textBaseline", "alphabetic") ∈ propDefaults v3Canvas ∧
    ("textbaseLine", "undefined") ∈ propDefaults idxCanvas ∧
    "textBaseline" ∉ claimedCanvasDefaults.map Prod.fst ∧
    "textbaseLine" ∉ claimedCanvasDefaults.map Prod.fst ∧
    samePairs (propDefaults idxCanvas) claimedCanvasDefaults = false ∧
    samePairs (propDefaults v3Canvas) claimedCanvasDefaults = false := by decide

/-- C4 amended: the documented Canvas defaults are the claim's fifteen
plus the text baseline (textbaseLine: undefined in index.d.ts and the
first revision, textBaseline: "alphabetic" in the second revision) and,
in the first revision, the internal fontName and fontSize (undefined);
Configuration.longestEdge defaults to 0 in all revisions; and a freshly
constructed canvas (modelled) holds exactly the documented defaults of
index.d.ts. -/
theorem c4_amended_documented_defaults :
    samePairs (propDefaults idxCanvas)
      (claimedCanvasDefaults ++ [("textbaseLine", "undefined")]) = true ∧
    samePairs (propDefaults v3Canvas)
      (claimedCanvasDefaults ++ [("textBaseline", "alphabetic")]) = true ∧
    samePairs (propDefaults v1Canvas)
      (claimedCanvasDefaults ++
        [("textbaseLine", "undefined"), ("fontName", "undefined"),
         ("fontSize", "undefined")]) = true ∧
    (propDefaults idxConfiguration).contains ("longestEdge", "0") = true ∧
    (propDefaults v1Configuration).contains ("longestEdge", "0") = true ∧
    (propDefaults v3Configuration).contains ("longestEdge", "0") = true ∧
    (Canvas.init 100 100).state = defaultCanvasState ∧
    defaultCanvasState.fillStyle = "#000" ∧
    defaultCanvasState.strokeStyle = "#000" ∧
    defaultCanvasState.shadowColor = none ∧
    defaultCanvasState.shadowBlur = 0 ∧
    defaultCanvasState.shadowOffsetX = 0 ∧
    defaultCanvasState.shadowOffsetY = 0 ∧
    defaultCanvasState.miterLimit = 0 ∧
    defaultCanvasState.lineCap = "butt" ∧
    defaultCanvasState.lineJoin = "miter" ∧
    defaultCanvasState.lineWidth = 1 ∧
    defaultCanvasState.globalAlpha = 1 ∧
    defaultCanvasState.globalCompositeOperation = "source-over" ∧
    defaultCanvasState.lineDash = [] ∧
    defaultCanvasState.font = "12pt Helvetica" ∧
    defaultCanvasState.textAlign = "left" ∧
    defaultCanvasState.textbaseLine = none := by decide

/-- C5: the declared rectangle type has exactly the fields x, y, width,
height together with the derived origin and size (in both revisions that
declare it); the declared Gradient holds a list of color stops, each
pairing a location with a colorStyle; and addColorStop (modelled from
its documented contract) appends a stop. -/
theorem c5_rect_fields_and_gradient_stops :
    propNames v3Rect = ["x", "y", "width", "height", "origin", "size"] ∧
    propNames v1RectObject = ["origin", "size", "x", "y", "width", "height"] ∧
    (propsOf v1Gradient).any
      (fun q => q.pname == "stops" && q.ptype == .arrT (.objName "GradientStop")) = true ∧
    (propsOf v1GradientStop).map (fun q => (q.pname, q.ptype))
      = [("location", TsType.num), ("colorStyle", TsType.str)] ∧
    ∀ (g : GradientObj) (offset : ℚ) (color : String),
      (g.addColorStop offset color).stops = g.stops ++ [⟨offset, color⟩] :=
  ⟨rfl, rfl, rfl, rfl, fun _ _ _ => rfl⟩

/-- C6: no declared operation of any revision declares a thrown
exception, an error result type, or a failure branch; every declared
operation's return type is a plain value type (void, boolean, or an
object-like type). -/
theorem c6_no_error_paths :
    (allDecls.flatMap declMethods).all
      (fun ms => ms.thrws.isNone && !(mentionsErrorType ms.ret)
        && returnsPlainValue ms.ret) = true := rfl

/-- C7: no declared operation is asynchronous, returns a Promise, or
takes a callback — no method or constructor parameter has a function
type, no return type mentions a Promise, and no method carries an async
marker. -/
theorem c7_all_operations_synchronous :
    ((allDecls.flatMap declMethods).all
       (fun ms => !ms.isAsync && !(containsPromise ms.ret)
         && ms.params.all (fun pr => !(containsFunT pr.ptype) && !(containsPromise pr.ptype)))
     && (allDecls.flatMap declCtorParams).all
          (fun pr => !(containsFunT pr.ptype) && !(containsPromise pr.ptype))) = true := rfl

/-- C8: for every image with positive width and height and every
positive length, sizeToFitLongestEdge (modelled from its documented
contract) returns a size whose longest edge equals the requested length
and whose width-to-height ratio equals the image's ratio, equivalently
its aspectRatio. -/
theorem c8_sizeToFitLongestEdge_fits_and_keeps_ratio (i : Image) (len : ℚ)
    (hw : 0 < i.size.width) (hh : 0 < i.size.height) (hl : 0 < len) :
    max (i.sizeToFitLongestEdge len).width (i.sizeToFitLongestEdge len).height = len ∧
    (i.sizeToFitLongestEdge len).width / (i.sizeToFitLongestEdge len).height
      = i.size.width / i.size.height ∧
    (i.sizeToFitLongestEdge len).width / (i.sizeToFitLongestEdge len).height
      = i.aspectRatio := by
  unfold Image.sizeToFitLongestEdge
  rcases le_or_lt i.size.height i.size.width with hcase | hcase
  · rw [if_pos hcase]
    dsimp only
    have hle : i.size.height * len / i.size.width ≤ len := by
      rw [div_le_iff₀ hw]
      nlinarith [mul_le_mul_of_nonneg_right hcase hl.le]
    have hratio : len / (i.size.height * len / i.size.width)
        = i.size.width / i.size.height := by
      rw [div_div_eq_mul_div, mul_comm i.size.height len,
        mul_div_mul_left i.size.width i.size.height hl.ne']
    exact ⟨max_eq_left hle, hratio, hratio⟩
  · rw [if_neg (not_le.mpr hcase)]
    dsimp only
    have hle : i.size.width * len / i.size.height ≤ len := by
      rw [div_le_iff₀ hh]
      nlinarith [mul_le_mul_of_nonneg_right hcase.le hl.le]
    have hratio : (i.size.width * len / i.size.height) / len
        = i.size.width / i.size.height := by
      rw [div_div, mul_comm i.size.height len, mul_comm i.size.width len,
        mul_div_mul_left i.size.width i.size.height hl.ne']
    exact ⟨max_eq_right hle, hratio, hratio⟩

/-- C8 witness: the theorem applied to a concrete 4x2 image and length
10, with the positivity hypotheses discharged by evaluation. -/
theorem c8_witness :
    0 < imgEx.size.width ∧ 0 < imgEx.size.height ∧ 0 < (10 : ℚ) ∧
    (max (imgEx.sizeToFitLongestEdge 10).width (imgEx.sizeToFitLongestEdge 10).height = 10 ∧
     (imgEx.sizeToFitLongestEdge 10).width / (imgEx.sizeToFitLongestEdge 10).height
       = imgEx.size.width / imgEx.size.height ∧
     (imgEx.sizeToFitLongestEdge 10).width / (imgEx.sizeToFitLongestEdge 10).height
       = imgEx.aspectRatio) :=
  ⟨by decide, by decide, by decide,
   c8_sizeToFitLongestEdge_fits_and_keeps_ratio imgEx 10 (by decide) (by decide) (by decide)⟩

/-- C9: save() followed by restore() returns every field of the drawing
state to its value at the save, whatever state changes happened in
between, and restore() on an empty saved-state stack changes nothing. -/
theorem c9_save_restore (c : Canvas) (s : CanvasState) :
    ((c.save.setState s).restore = c) ∧ (c.stack = [] → c.restore = c) := by
  obtain ⟨cw, ch, st, stk⟩ := c
  refine ⟨rfl, fun hstk => ?_⟩
  subst hstk
  rfl

/-- C9 witness: the theorem applied to a concrete fresh canvas (whose
saved-state stack is empty) and a concrete mutated drawing state. -/
theorem c9_witness :
    ((canvasEx.save.setState mutatedStateEx).restore = canvasEx) ∧
    canvasEx.restore = canvasEx :=
  ⟨(c9_save_restore canvasEx mutatedStateEx).1,
   (c9_save_restore canvasEx mutatedStateEx).2 rfl⟩

/-- C10: getContext() returns the canvas itself, so it is idempotent:
c.getContext().getContext() = c.getContext() = c. -/
theorem c10_getContext_returns_self (c : Canvas) :
    c.getContext = c ∧ c.getContext.getContext = c.getContext := ⟨rfl, rfl⟩
